import Mathlib

/-!
Verification of the ai-orchestrator core: the resource-constraint planner
(`src/agents/setup_agent.py`, `SetupAgent._calculate_constraints`) and the
metrics aggregator (`src/monitoring/metrics.py`, `MetricsCollector`).

Modelling conventions: Python `int` is embedded as `ℤ` (unbounded, may go
negative), Python `float` as `ℚ` (every float literal appearing in the source
is exactly representable or rounds to the stated value at the inputs the
claims touch), `datetime` instants as an explicit `ℕ` clock value passed in
by the caller, and Python dictionaries as key-value lists looked up by first
match (Python dicts hold unique keys, so first-match lookup agrees).
-/

namespace AIOrch

/-- Python `int(x)` on a float: truncation toward zero. -/
def pyInt (q : ℚ) : ℤ := if q < 0 then ⌈q⌉ else ⌊q⌋

/-- Python `round(x, 2)`: rounding to two decimal places.  (Python rounds
half-to-even; no value reached in this development sits on a half-cent
boundary, so round-half-up is an exact model at every input used.) -/
def round2 (q : ℚ) : ℚ := (round (q * 100) : ℤ) / 100

/-- `SystemProfile` from `setup_agent.py`. -/
structure SystemProfile where
  os_type : String := ""
  os_version : String := ""
  cpu_count : ℤ := 0
  cpu_freq_mhz : ℚ := 0
  ram_total_gb : ℚ := 0
  ram_available_gb : ℚ := 0
  disk_total_gb : ℚ := 0
  disk_free_gb : ℚ := 0
  disk_type : String := "Unknown"
  python_version : String := ""
  has_git : Bool := false
  has_node : Bool := false
  has_vscode : Bool := false
  network_speed_mbps : Option ℚ := none
deriving DecidableEq

/-- `ResourceConstraints` from `setup_agent.py`. -/
structure ResourceConstraints where
  max_concurrent_agents : ℤ
  max_memory_per_agent_mb : ℤ
  max_cache_size_gb : ℚ
  max_log_size_gb : ℚ
  enable_disk_cache : Bool
  enable_memory_cache : Bool
  use_process_pool : Bool
  recommended_workers : ℤ
deriving DecidableEq

/-- `available_ram_gb` in `SetupAgent._calculate_constraints`:
`max(profile.ram_available_gb - reserved_ram_gb, 1.0)` with
`reserved_ram_gb = 3.0`. -/
def availableRam (profile : SystemProfile) : ℚ :=
  max (profile.ram_available_gb - 3) 1

/-- `max_agents_by_ram = int(available_ram_gb * 1024 / 200)`. -/
def agentsByRam (profile : SystemProfile) : ℤ :=
  pyInt (availableRam profile * 1024 / 200)

/-- `max_agents_by_cpu = profile.cpu_count * 2`. -/
def agentsByCpu (profile : SystemProfile) : ℤ :=
  profile.cpu_count * 2

/-- `SetupAgent._calculate_constraints`.  The source computes
`max_memory_per_agent_mb = int((available_ram_gb * 1024) / max_concurrent_agents)`
with no clamp on the divisor, so when `max_concurrent_agents` resolves to `0`
the Python code raises `ZeroDivisionError`; the embedding returns `none`
exactly there. -/
def calculate_constraints (profile : SystemProfile) : Option ResourceConstraints :=
  let available_ram_gb := availableRam profile
  let max_concurrent_agents :=
    min (min (agentsByRam profile) (agentsByCpu profile)) 20
  if max_concurrent_agents = 0 then none
  else
    some {
      max_concurrent_agents := max_concurrent_agents
      max_memory_per_agent_mb := pyInt (available_ram_gb * 1024 / (max_concurrent_agents : ℚ))
      max_cache_size_gb := round2 (min (profile.disk_free_gb * (1 / 10)) 10)
      max_log_size_gb := 1
      enable_disk_cache := decide (profile.disk_free_gb > 10)
      enable_memory_cache := decide (profile.ram_available_gb > 4)
      use_process_pool := decide (profile.cpu_count ≥ 4) && decide (profile.ram_available_gb > 4)
      recommended_workers := min profile.cpu_count max_concurrent_agents }

/-- The spec's scenario snapshot: `cpu_count=4, ram_available_gb=10, disk_free_gb=50`. -/
def profileScenario : SystemProfile :=
  { cpu_count := 4, ram_available_gb := 10, disk_free_gb := 50 }

/-- A snapshot whose `cpu_count` is `0`, making `max_concurrent_agents`
resolve to `0` upstream of the memory division. -/
def profileCpu0 : SystemProfile :=
  { cpu_count := 0, ram_available_gb := 10, disk_free_gb := 50 }

/-- `TaskMetrics` from `metrics.py`. -/
structure TaskMetrics where
  total_tasks : ℤ := 0
  pending_tasks : ℤ := 0
  in_progress_tasks : ℤ := 0
  completed_tasks : ℤ := 0
  failed_tasks : ℤ := 0
  cancelled_tasks : ℤ := 0
  average_duration : ℚ := 0
  total_duration : ℚ := 0
  qc_approval_rate : ℚ := 0
  qc_rejection_rate : ℚ := 0
deriving DecidableEq

/-- The task-metrics record of a fresh collector. -/
def initTaskMetrics : TaskMetrics := {}

/-- `MetricsCollector.record_task_created` (its effect on `_task_metrics`). -/
def record_task_created (t : TaskMetrics) : TaskMetrics :=
  { t with total_tasks := t.total_tasks + 1
           pending_tasks := t.pending_tasks + 1 }

/-- `MetricsCollector.record_task_started`. -/
def record_task_started (t : TaskMetrics) : TaskMetrics :=
  { t with pending_tasks := t.pending_tasks - 1
           in_progress_tasks := t.in_progress_tasks + 1 }

/-- `MetricsCollector.record_task_completed`. -/
def record_task_completed (t : TaskMetrics) (duration : ℚ) : TaskMetrics :=
  let t1 := { t with in_progress_tasks := t.in_progress_tasks - 1
                     completed_tasks := t.completed_tasks + 1
                     total_duration := t.total_duration + duration }
  if t1.completed_tasks > 0 then
    { t1 with average_duration := t1.total_duration / (t1.completed_tasks : ℚ) }
  else t1

/-- `MetricsCollector.record_task_failed`. -/
def record_task_failed (t : TaskMetrics) : TaskMetrics :=
  { t with in_progress_tasks := t.in_progress_tasks - 1
           failed_tasks := t.failed_tasks + 1 }

/-- `MetricsCollector.record_task_cancelled`.  The source decrements
`in_progress_tasks` if it is `> 0`, else `pending_tasks` if `> 0`, and
always increments `cancelled_tasks`; the method body contains no logging
call and raises nothing. -/
def record_task_cancelled (t : TaskMetrics) : TaskMetrics :=
  let t1 :=
    if t.in_progress_tasks > 0 then
      { t with in_progress_tasks := t.in_progress_tasks - 1 }
    else if t.pending_tasks > 0 then
      { t with pending_tasks := t.pending_tasks - 1 }
    else t
  { t1 with cancelled_tasks := t1.cancelled_tasks + 1 }

/-- `MetricsCollector.record_qc_result`. -/
def record_qc_result (t : TaskMetrics) (approved : Bool) : TaskMetrics :=
  let total_qc := t.completed_tasks + t.failed_tasks
  if total_qc > 0 then
    if approved then
      { t with qc_approval_rate := (t.completed_tasks : ℚ) / (total_qc : ℚ) }
    else
      { t with qc_rejection_rate := (t.failed_tasks : ℚ) / (total_qc : ℚ) }
  else t

/-- One task-lifecycle event, as named in the spec's sequence property. -/
inductive TaskOp where
  | created
  | started
  | completed (duration : ℚ)
  | failed
  | cancelled
deriving DecidableEq

/-- Dispatch of one lifecycle event to the matching `MetricsCollector` method. -/
def stepTask (t : TaskMetrics) : TaskOp → TaskMetrics
  | .created => record_task_created t
  | .started => record_task_started t
  | .completed d => record_task_completed t d
  | .failed => record_task_failed t
  | .cancelled => record_task_cancelled t

/-- Run a sequence of lifecycle events from a given task-metrics record. -/
def runTaskFrom (t : TaskMetrics) (ops : List TaskOp) : TaskMetrics :=
  ops.foldl stepTask t

/-- Run a sequence of lifecycle events from a fresh aggregator. -/
def runTask (ops : List TaskOp) : TaskMetrics :=
  runTaskFrom initTaskMetrics ops

/-- The left-hand side of the TaskMetrics invariant:
`pending + in_progress + completed + failed + cancelled`. -/
def taskSum (t : TaskMetrics) : ℤ :=
  t.pending_tasks + t.in_progress_tasks + t.completed_tasks +
    t.failed_tasks + t.cancelled_tasks

/-- A cancellation is safe when one of the two decrement branches of
`record_task_cancelled` fires. -/
def cancelSafe (t : TaskMetrics) : Bool :=
  t.in_progress_tasks > 0 || t.pending_tasks > 0

/-- A trace is safe when every `cancelled` event in it occurs at a state
where `record_task_cancelled` takes one of its decrement branches. -/
def safeTrace : TaskMetrics → List TaskOp → Bool
  | _, [] => true
  | t, TaskOp.cancelled :: rest =>
      cancelSafe t && safeTrace (record_task_cancelled t) rest
  | t, op :: rest => safeTrace (stepTask t op) rest

/-- `AgentMetrics` from `metrics.py`.  (`last_active : Optional[datetime]` is
embedded as an optional clock value; the `metadata : Dict[str, Any]` field is
never written by any `MetricsCollector` method and is not represented.) -/
structure AgentMetrics where
  agent_id : String
  agent_type : String
  tasks_completed : ℤ := 0
  tasks_failed : ℤ := 0
  total_execution_time : ℚ := 0
  average_execution_time : ℚ := 0
  tokens_used : ℤ := 0
  api_calls : ℤ := 0
  cost_usd : ℚ := 0
  quality_score : ℚ := 0
  last_active : Option ℕ := none
deriving DecidableEq

/-- First-match lookup in the `_agent_metrics` dictionary (Python dict keys
are unique, so first match is the match). -/
def lookupAgent : List (String × AgentMetrics) → String → Option AgentMetrics
  | [], _ => none
  | p :: rest, a => if p.1 = a then some p.2 else lookupAgent rest a

/-- In-place update of the entry stored under a key of `_agent_metrics`. -/
def updAgent (l : List (String × AgentMetrics)) (a : String)
    (f : AgentMetrics → AgentMetrics) : List (String × AgentMetrics) :=
  l.map (fun p => if p.1 = a then (p.1, f p.2) else p)

/-- The `MetricsCollector` state touched by the per-agent and per-task
operations: the `_agent_metrics` dictionary (as an insertion-ordered
key-value list) and the `_task_metrics` record.  The resource, library,
cost and custom families are independent records that none of the
operations embedded here reads or writes. -/
structure MetricsCollector where
  agent_metrics : List (String × AgentMetrics) := []
  task_metrics : TaskMetrics := {}
deriving DecidableEq

/-- `MetricsCollector.record_agent_task_completion`; `now` stands for the
`datetime.utcnow()` instant observed inside the call. -/
def record_agent_task_completion (st : MetricsCollector)
    (agent_id agent_type : String) (execution_time : ℚ) (success : Bool)
    (now : ℕ) : MetricsCollector :=
  let l :=
    if (lookupAgent st.agent_metrics agent_id).isSome then st.agent_metrics
    else st.agent_metrics ++ [(agent_id, { agent_id := agent_id, agent_type := agent_type })]
  { st with agent_metrics := updAgent l agent_id (fun m =>
      let m1 :=
        if success then { m with tasks_completed := m.tasks_completed + 1 }
        else { m with tasks_failed := m.tasks_failed + 1 }
      let m2 := { m1 with total_execution_time := m1.total_execution_time + execution_time }
      let total := m2.tasks_completed + m2.tasks_failed
      let m3 := { m2 with average_execution_time :=
        if total > 0 then m2.total_execution_time / (total : ℚ) else 0 }
      { m3 with last_active := some now }) }

/-- `MetricsCollector.record_agent_tokens`: guarded by
`if agent_id in self._agent_metrics`, otherwise nothing happens. -/
def record_agent_tokens (st : MetricsCollector) (agent_id : String)
    (tokens : ℤ) (cost_usd : ℚ) : MetricsCollector :=
  if (lookupAgent st.agent_metrics agent_id).isSome then
    { st with agent_metrics := updAgent st.agent_metrics agent_id (fun m =>
        { m with tokens_used := m.tokens_used + tokens
                 cost_usd := m.cost_usd + cost_usd
                 api_calls := m.api_calls + 1 }) }
  else st

/-- `MetricsCollector.record_agent_quality_score`: same guard; the score is
overwritten, not accumulated. -/
def record_agent_quality_score (st : MetricsCollector) (agent_id : String)
    (score : ℚ) : MetricsCollector :=
  if (lookupAgent st.agent_metrics agent_id).isSome then
    { st with agent_metrics := updAgent st.agent_metrics agent_id (fun m =>
        { m with quality_score := score }) }
  else st

/-- The `agents` component of `MetricsCollector.get_summary`: one entry per
recorded agent (`asdict` copies field values, so the summary's content is
exactly the stored records). -/
def get_summary_agents (st : MetricsCollector) : List (String × AgentMetrics) :=
  st.agent_metrics

/-- A fresh collector. -/
def initCollector : MetricsCollector := {}

/-- Reference-level model of the `_task_metrics` field for the ownership
claim: a heap of `TaskMetrics` objects addressed by index, with the
collector's `_task_metrics` attribute holding the address of one of them.
Python's `return self._task_metrics` hands the caller that address, and
`record_task_created` mutates the object stored at the address in place
(`self._task_metrics.total_tasks += 1` rebinds no attribute). -/
structure TaskStore where
  heap : List TaskMetrics
  task_addr : ℕ
deriving DecidableEq

/-- Reading the object stored at an address of the heap. -/
def derefTask (c : TaskStore) (r : ℕ) : TaskMetrics :=
  c.heap.getD r initTaskMetrics

/-- `MetricsCollector.get_task_metrics`: returns the reference held in
`self._task_metrics`, not a copy of the record. -/
def get_task_metrics (c : TaskStore) : ℕ :=
  c.task_addr

/-- `MetricsCollector.record_task_created` at the reference level: the
record at `self._task_metrics` is updated in place. -/
def record_task_created_ref (c : TaskStore) : TaskStore :=
  { c with heap := c.heap.set c.task_addr (record_task_created (derefTask c c.task_addr)) }

/-- The store of a fresh collector: one task-metrics object, referenced by
`self._task_metrics`. -/
def initStore : TaskStore := { heap := [initTaskMetrics], task_addr := 0 }

/-! ### Helper lemmas -/

/-- Shape of the planner's result whenever the divisor is non-zero. -/
lemma calculate_constraints_of_ne (p : SystemProfile)
    (h : min (min (agentsByRam p) (agentsByCpu p)) 20 ≠ 0) :
    calculate_constraints p = some {
      max_concurrent_agents := min (min (agentsByRam p) (agentsByCpu p)) 20
      max_memory_per_agent_mb :=
        pyInt (availableRam p * 1024 / ((min (min (agentsByRam p) (agentsByCpu p)) 20 : ℤ) : ℚ))
      max_cache_size_gb := round2 (min (p.disk_free_gb * (1 / 10)) 10)
      max_log_size_gb := 1
      enable_disk_cache := decide (p.disk_free_gb > 10)
      enable_memory_cache := decide (p.ram_available_gb > 4)
      use_process_pool := decide (p.cpu_count ≥ 4) && decide (p.ram_available_gb > 4)
      recommended_workers := min p.cpu_count (min (min (agentsByRam p) (agentsByCpu p)) 20) } := by
  simp only [calculate_constraints]
  rw [if_neg h]

/-- `agents_by_ram` is at least 5 for every profile, because
`available_ram_gb` is clamped to at least 1 GB and `1024 / 200 > 5`. -/
lemma agentsByRam_ge_five (p : SystemProfile) : (5 : ℤ) ≤ agentsByRam p := by
  have havail : (1:ℚ) ≤ availableRam p := le_max_right _ _
  have h0 : (0:ℚ) ≤ availableRam p := le_trans zero_le_one havail
  have hnn : ¬ availableRam p * 1024 / 200 < 0 := by
    push_neg
    exact div_nonneg (mul_nonneg h0 (by norm_num)) (by norm_num)
  rw [agentsByRam, pyInt, if_neg hnn, Int.le_floor]
  push_cast
  rw [le_div_iff₀ (by norm_num : (0:ℚ) < 200)]
  linarith

/-- A single lifecycle step preserves the counting invariant provided any
cancellation happens where a decrement branch fires. -/
lemma taskSum_step (t : TaskMetrics) (op : TaskOp)
    (hs : op = TaskOp.cancelled → cancelSafe t = true)
    (hinv : taskSum t = t.total_tasks) :
    taskSum (stepTask t op) = (stepTask t op).total_tasks := by
  cases op with
  | created =>
      simp only [stepTask, record_task_created, taskSum] at *
      omega
  | started =>
      simp only [stepTask, record_task_started, taskSum] at *
      omega
  | completed d =>
      simp only [stepTask, record_task_completed, taskSum] at *
      split <;> simp <;> omega
  | failed =>
      simp only [stepTask, record_task_failed, taskSum] at *
      omega
  | cancelled =>
      have hc := hs rfl
      simp only [cancelSafe, Bool.or_eq_true, decide_eq_true_eq] at hc
      by_cases h1 : t.in_progress_tasks > 0
      · simp only [stepTask, record_task_cancelled, taskSum, h1, if_true] at hinv ⊢
        omega
      · by_cases h2 : t.pending_tasks > 0
        · simp only [stepTask, record_task_cancelled, taskSum, h1, h2, if_true,
            if_false] at hinv ⊢
          omega
        · exfalso
          rcases hc with h | h
          · exact h1 h
          · exact h2 h

/-- The counting invariant is preserved along every safe trace. -/
lemma safeTrace_inv (ops : List TaskOp) (t : TaskMetrics)
    (hsafe : safeTrace t ops = true) (hinv : taskSum t = t.total_tasks) :
    taskSum (runTaskFrom t ops) = (runTaskFrom t ops).total_tasks := by
  induction ops generalizing t with
  | nil => simpa [runTaskFrom] using hinv
  | cons op rest ih =>
      have hrun : runTaskFrom t (op :: rest) = runTaskFrom (stepTask t op) rest := rfl
      rw [hrun]
      cases op with
      | cancelled =>
          simp only [safeTrace, Bool.and_eq_true] at hsafe
          exact ih (stepTask t TaskOp.cancelled) hsafe.2
            (taskSum_step t TaskOp.cancelled (fun _ => hsafe.1) hinv)
      | created =>
          simp only [safeTrace] at hsafe
          exact ih _ hsafe (taskSum_step t TaskOp.created (by simp) hinv)
      | started =>
          simp only [safeTrace] at hsafe
          exact ih _ hsafe (taskSum_step t TaskOp.started (by simp) hinv)
      | completed d =>
          simp only [safeTrace] at hsafe
          exact ih _ hsafe (taskSum_step t (TaskOp.completed d) (by simp) hinv)
      | failed =>
          simp only [safeTrace] at hsafe
          exact ih _ hsafe (taskSum_step t TaskOp.failed (by simp) hinv)

/-- Safety of a trace is inherited by every prefix of the trace. -/
lemma safeTrace_append (t : TaskMetrics) (ops rest : List TaskOp)
    (h : safeTrace t (ops ++ rest) = true) : safeTrace t ops = true := by
  induction ops generalizing t with
  | nil => rfl
  | cons op ops ih =>
      cases op with
      | cancelled =>
          simp only [List.cons_append, safeTrace, Bool.and_eq_true] at h ⊢
          exact ⟨h.1, ih _ h.2⟩
      | created => exact ih _ h
      | started => exact ih _ h
      | completed d => exact ih _ h
      | failed => exact ih _ h

/-- Updating a key and then looking it up yields the updated record. -/
lemma lookupAgent_updAgent_self (l : List (String × AgentMetrics)) (a : String)
    (f : AgentMetrics → AgentMetrics) :
    lookupAgent (updAgent l a f) a = (lookupAgent l a).map f := by
  induction l with
  | nil => rfl
  | cons p rest ih =>
      by_cases h : p.1 = a
      · simp [updAgent, lookupAgent, h]
      · simpa [updAgent, lookupAgent, h] using ih

/-- Two successive in-place updates of the same key compose. -/
lemma updAgent_updAgent (l : List (String × AgentMetrics)) (a : String)
    (f g : AgentMetrics → AgentMetrics) :
    updAgent (updAgent l a f) a g = updAgent l a (fun m => g (f m)) := by
  induction l with
  | nil => rfl
  | cons p rest ih =>
      by_cases h : p.1 = a
      · simp [updAgent, h] at ih ⊢
        exact ih
      · simp [updAgent, h] at ih ⊢
        exact ih

/-- Overwriting the quality score twice is the same as overwriting it once
with the later score, on every collector state. -/
lemma record_quality_twice (st : MetricsCollector) (a : String) (s₁ s₂ : ℚ) :
    record_agent_quality_score (record_agent_quality_score st a s₁) a s₂ =
      record_agent_quality_score st a s₂ := by
  by_cases h : (lookupAgent st.agent_metrics a).isSome = true
  · obtain ⟨m, hm⟩ := Option.isSome_iff_exists.mp h
    have hinner : record_agent_quality_score st a s₁ =
        { st with agent_metrics :=
            updAgent st.agent_metrics a (fun m => { m with quality_score := s₁ }) } := by
      simp only [record_agent_quality_score, h, if_true]
    have hguard : (lookupAgent
        (updAgent st.agent_metrics a (fun m => { m with quality_score := s₁ }))
        a).isSome = true := by
      rw [lookupAgent_updAgent_self, hm]
      rfl
    rw [hinner]
    simp only [record_agent_quality_score, hguard, h, if_true, updAgent_updAgent]
  · simp [record_agent_quality_score, h]

/-- Reading back the heap cell just written. -/
lemma derefTask_set (l : List TaskMetrics) (i : ℕ) (x : TaskMetrics)
    (h : i < l.length) : (l.set i x).getD i initTaskMetrics = x := by
  induction l generalizing i with
  | nil => simp at h
  | cons y ys ih =>
      cases i with
      | zero => rfl
      | succ j =>
          simp only [List.set, List.getD, List.getElem?_cons_succ]
          have hj : j < ys.length := by simpa using h
          simpa [List.getD] using ih j hj

/-! ### Claims -/

/-- C1: as frozen, the claim fails on the code: starting from a fresh
aggregator, a single `recordTaskCancelled` call (both decrement branches
dead) increments `cancelled_tasks` without touching `total_tasks`, so
`pending+in_progress+completed+failed+cancelled = 1 ≠ 0 = total`. -/
theorem C1_counterexample :
    taskSum (runTask [TaskOp.cancelled]) ≠ (runTask [TaskOp.cancelled]).total_tasks := by
  decide

/-- C1 (amended): for every sequence of the five lifecycle calls from a
fresh aggregator in which `recordTaskCancelled` is only invoked while
`in_progress_tasks > 0` or `pending_tasks > 0`, the identity
`pending+in_progress+completed+failed+cancelled = total` holds after each
call returns (stated for every prefix of a safe trace). -/
theorem C1_invariant_safe_traces (ops rest : List TaskOp)
    (h : safeTrace initTaskMetrics (ops ++ rest) = true) :
    taskSum (runTask ops) = (runTask ops).total_tasks :=
  safeTrace_inv ops initTaskMetrics (safeTrace_append _ _ _ h) rfl

/-- C1 witness: the safe trace created-started-cancelled keeps the identity. -/
theorem C1_witness :
    taskSum (runTask [TaskOp.created, TaskOp.started, TaskOp.cancelled]) =
      (runTask [TaskOp.created, TaskOp.started, TaskOp.cancelled]).total_tasks :=
  C1_invariant_safe_traces [TaskOp.created, TaskOp.started, TaskOp.cancelled] []
    (by decide)

/-- C2: the clamp the spec requires is absent from the code.  On a snapshot
with `cpu_count = 0` the computed `max_concurrent_agents` resolves to `0`
and `_calculate_constraints` divides by it, raising `ZeroDivisionError`
(embedded as `none`) rather than clamping to 1 before step 5. -/
theorem C2_division_by_zero :
    agentsByCpu profileCpu0 = 0 ∧
    min (min (agentsByRam profileCpu0) (agentsByCpu profileCpu0)) 20 = 0 ∧
    calculate_constraints profileCpu0 = none := by
  refine ⟨by norm_num [agentsByCpu, profileCpu0], ?_, ?_⟩
  · norm_num [agentsByRam, agentsByCpu, availableRam, pyInt, profileCpu0, min_def]
  · norm_num [calculate_constraints, agentsByRam, agentsByCpu, availableRam,
      pyInt, profileCpu0, min_def]

/-- C3: as frozen, the claim fails: at the snapshot with `cpu_count = 0`
the planner produces no constraints at all (it raises `ZeroDivisionError`),
so no result with `max_concurrent_agents ∈ [1, 20]` exists. -/
theorem C3_counterexample :
    ¬ ∃ c, calculate_constraints profileCpu0 = some c ∧
        1 ≤ c.max_concurrent_agents ∧ c.max_concurrent_agents ≤ 20 ∧
        c.max_concurrent_agents ≤ profileCpu0.cpu_count * 2 := by
  have h : calculate_constraints profileCpu0 = none := by
    norm_num [calculate_constraints, agentsByRam, agentsByCpu, availableRam,
      pyInt, profileCpu0, min_def]
  rintro ⟨c, hc, -⟩
  rw [h] at hc
  exact Option.noConfusion hc

/-- C3 (amended): for every snapshot whose `cpu_count` is at least 1, the
planner returns constraints with `max_concurrent_agents ∈ [1, 20]` and
`max_concurrent_agents ≤ cpu_count * 2`. -/
theorem C3_bounds (p : SystemProfile) (h : 1 ≤ p.cpu_count) :
    ∃ c, calculate_constraints p = some c ∧
      1 ≤ c.max_concurrent_agents ∧ c.max_concurrent_agents ≤ 20 ∧
      c.max_concurrent_agents ≤ p.cpu_count * 2 := by
  have hram : (5 : ℤ) ≤ agentsByRam p := agentsByRam_ge_five p
  have hcpu : agentsByCpu p = p.cpu_count * 2 := rfl
  have hne : min (min (agentsByRam p) (agentsByCpu p)) 20 ≠ 0 := by omega
  refine ⟨_, calculate_constraints_of_ne p hne, ?_, ?_, ?_⟩
  · show 1 ≤ min (min (agentsByRam p) (agentsByCpu p)) 20
    omega
  · show min (min (agentsByRam p) (agentsByCpu p)) 20 ≤ 20
    omega
  · show min (min (agentsByRam p) (agentsByCpu p)) 20 ≤ p.cpu_count * 2
    omega

/-- C3 witness: the scenario snapshot has `cpu_count = 4 ≥ 1` and the
bounds hold there. -/
theorem C3_witness :
    ∃ c, calculate_constraints profileScenario = some c ∧
      1 ≤ c.max_concurrent_agents ∧ c.max_concurrent_agents ≤ 20 ∧
      c.max_concurrent_agents ≤ profileScenario.cpu_count * 2 :=
  C3_bounds profileScenario (by norm_num [profileScenario])

/-- C4: as frozen, the claim fails on the code: `get_task_metrics` returns
`self._task_metrics` itself, and the value observed through that reference
after a subsequent `record_task_created` differs from the value at read
time. -/
theorem C4_counterexample :
    derefTask (record_task_created_ref initStore) (get_task_metrics initStore) ≠
      derefTask initStore (get_task_metrics initStore) := by
  decide

/-- C4 (amended): `get_task_metrics` returns a live reference, never a
copy: on every collector state, the record observed through the reference
it returned before a `record_task_created` call is exactly the mutated
record (so it differs from the value at read time); only `get_summary`
copies the stored values out. -/
theorem C4_live_reference (c : TaskStore) (h : c.task_addr < c.heap.length) :
    derefTask (record_task_created_ref c) (get_task_metrics c) =
      record_task_created (derefTask c (get_task_metrics c)) ∧
    derefTask (record_task_created_ref c) (get_task_metrics c) ≠
      derefTask c (get_task_metrics c) := by
  have heq : derefTask (record_task_created_ref c) (get_task_metrics c) =
      record_task_created (derefTask c (get_task_metrics c)) := by
    unfold record_task_created_ref get_task_metrics derefTask
    exact derefTask_set _ _ _ h
  refine ⟨heq, ?_⟩
  rw [heq]
  intro hcontra
  have := congrArg TaskMetrics.total_tasks hcontra
  simp only [record_task_created] at this
  omega

/-- C4 witness: on a fresh collector the reference returned by
`get_task_metrics` observes the next `record_task_created`. -/
theorem C4_witness :
    derefTask (record_task_created_ref initStore) (get_task_metrics initStore) =
      record_task_created (derefTask initStore (get_task_metrics initStore)) ∧
    derefTask (record_task_created_ref initStore) (get_task_metrics initStore) ≠
      derefTask initStore (get_task_metrics initStore) :=
  C4_live_reference initStore (by decide)

/-- C5: as frozen, the claim fails on the code: the branches test `> 0`,
not non-zero.  After one `recordTaskFailed` on a fresh aggregator
`in_progress_tasks = -1` is non-zero, yet `recordTaskCancelled` does not
decrement it.  (The both-branches-dead case is also silent: the method body
contains no logging call.) -/
theorem C5_counterexample :
    (record_task_failed initTaskMetrics).in_progress_tasks ≠ 0 ∧
    (record_task_cancelled (record_task_failed initTaskMetrics)).in_progress_tasks ≠
      (record_task_failed initTaskMetrics).in_progress_tasks - 1 := by
  decide

/-- C5 (amended): `recordTaskCancelled` decrements whichever of
`in_progress_tasks` / `pending_tasks` is positive, preferring
`in_progress_tasks`; if neither is positive it decrements nothing and
still increments `cancelled_tasks`, accepting the invariant violation
without raising (and without logging — the method body logs nothing). -/
theorem C5_cancelled_semantics (t : TaskMetrics) :
    record_task_cancelled t =
      { t with
          in_progress_tasks :=
            if 0 < t.in_progress_tasks then t.in_progress_tasks - 1
            else t.in_progress_tasks
          pending_tasks :=
            if 0 < t.in_progress_tasks then t.pending_tasks
            else if 0 < t.pending_tasks then t.pending_tasks - 1
            else t.pending_tasks
          cancelled_tasks := t.cancelled_tasks + 1 } := by
  simp only [record_task_cancelled]
  by_cases h1 : t.in_progress_tasks > 0
  · simp [h1]
  · by_cases h2 : t.pending_tasks > 0
    · simp [h1, h2]
    · simp [h1, h2]

/-- C6: tokens and quality scores for an agent with no prior completion
record are silently dropped: the call raises nothing, creates no record,
returns the collector unchanged, and the summary still shows no such
agent. -/
theorem C6_unknown_agent_noop (st : MetricsCollector) (a : String)
    (tokens : ℤ) (cost score : ℚ)
    (h : lookupAgent st.agent_metrics a = none) :
    record_agent_tokens st a tokens cost = st ∧
    record_agent_quality_score st a score = st ∧
    lookupAgent (get_summary_agents st) a = none := by
  refine ⟨?_, ?_, h⟩
  · simp [record_agent_tokens, h]
  · simp [record_agent_quality_score, h]

/-- C6 witness: on a fresh collector, tokens and a quality score for agent
"a1" are no-ops and the summary shows no agent "a1". -/
theorem C6_witness :
    record_agent_tokens initCollector "a1" 5 1 = initCollector ∧
    record_agent_quality_score initCollector "a1" (1 / 2) = initCollector ∧
    lookupAgent (get_summary_agents initCollector) "a1" = none :=
  C6_unknown_agent_noop initCollector "a1" 5 1 (1 / 2) rfl

/-- C7: the spec's scenario snapshot `{cpu_count=4, ram_available_gb=10,
disk_free_gb=50}` yields `available_ram_gb=7`, `agents_by_ram=35`,
`agents_by_cpu=8`, and constraints `max_concurrent_agents=8`,
`max_memory_per_agent_mb=896`, `max_cache_size_gb=5`, disk and memory
caches enabled, the worker pool enabled, and `recommended_workers=4`. -/
theorem C7_scenario :
    availableRam profileScenario = 7 ∧
    agentsByRam profileScenario = 35 ∧
    agentsByCpu profileScenario = 8 ∧
    calculate_constraints profileScenario =
      some { max_concurrent_agents := 8, max_memory_per_agent_mb := 896,
             max_cache_size_gb := 5, max_log_size_gb := 1,
             enable_disk_cache := true, enable_memory_cache := true,
             use_process_pool := true, recommended_workers := 4 } := by
  refine ⟨?_, ?_, ?_, ?_⟩
  · norm_num [availableRam, profileScenario]
  · norm_num [agentsByRam, availableRam, profileScenario, pyInt]
  · norm_num [agentsByCpu, profileScenario]
  · norm_num [calculate_constraints, agentsByRam, agentsByCpu, availableRam,
      pyInt, round2, profileScenario, round_eq, min_def]

/-- C8: `recordTaskStarted` decrements `pending_tasks` and increments
`in_progress_tasks` unconditionally on every state, `recordTaskCompleted`
and `recordTaskFailed` decrement `in_progress_tasks` unconditionally, and
on a fresh aggregator `recordTaskStarted` leaves `pending_tasks = -1` and
`in_progress_tasks = 1`: the counters are not kept non-negative. -/
theorem C8_no_zero_guard (t : TaskMetrics) (d : ℚ) :
    (record_task_started t).pending_tasks = t.pending_tasks - 1 ∧
    (record_task_started t).in_progress_tasks = t.in_progress_tasks + 1 ∧
    (record_task_completed t d).in_progress_tasks = t.in_progress_tasks - 1 ∧
    (record_task_failed t).in_progress_tasks = t.in_progress_tasks - 1 ∧
    (record_task_started initTaskMetrics).pending_tasks = -1 ∧
    (record_task_started initTaskMetrics).in_progress_tasks = 1 ∧
    (record_task_failed initTaskMetrics).in_progress_tasks = -1 := by
  refine ⟨rfl, rfl, ?_, rfl, by decide, by decide, by decide⟩
  simp only [record_task_completed]
  split <;> rfl

/-- C9: `record_qc_result true` never modifies `qc_rejection_rate`,
`record_qc_result false` never modifies `qc_approval_rate`, the call
touches nothing but the two rates, and when
`completed_tasks + failed_tasks = 0` it leaves the state unchanged. -/
theorem C9_qc_frame (t : TaskMetrics) (b : Bool) :
    (record_qc_result t true).qc_rejection_rate = t.qc_rejection_rate ∧
    (record_qc_result t false).qc_approval_rate = t.qc_approval_rate ∧
    (∃ a r, record_qc_result t b =
      { t with qc_approval_rate := a, qc_rejection_rate := r }) ∧
    (t.completed_tasks + t.failed_tasks = 0 → record_qc_result t b = t) := by
  refine ⟨?_, ?_, ?_, ?_⟩
  · simp only [record_qc_result]
    split <;> rfl
  · simp only [record_qc_result]
    split <;> rfl
  · simp only [record_qc_result]
    split
    · cases b
      · exact ⟨t.qc_approval_rate, _, rfl⟩
      · exact ⟨_, t.qc_rejection_rate, rfl⟩
    · exact ⟨t.qc_approval_rate, t.qc_rejection_rate, rfl⟩
  · intro h
    simp only [record_qc_result]
    rw [if_neg (by omega)]

/-- C9 witness: on a fresh aggregator (`completed + failed = 0`) an
approval modifies nothing at all. -/
theorem C9_witness :
    (record_qc_result initTaskMetrics true).qc_rejection_rate =
      initTaskMetrics.qc_rejection_rate ∧
    (record_qc_result initTaskMetrics false).qc_approval_rate =
      initTaskMetrics.qc_approval_rate ∧
    (∃ a r, record_qc_result initTaskMetrics true =
      { initTaskMetrics with qc_approval_rate := a, qc_rejection_rate := r }) ∧
    record_qc_result initTaskMetrics true = initTaskMetrics :=
  ⟨(C9_qc_frame initTaskMetrics true).1, (C9_qc_frame initTaskMetrics true).2.1,
   (C9_qc_frame initTaskMetrics true).2.2.1,
   (C9_qc_frame initTaskMetrics true).2.2.2 (by decide)⟩

/-- C10: the quality score is last-write-wins for an agent with an
existing record: one call sets it to exactly the given score, two
successive calls collapse to the later one, and recording the same score
twice equals recording it once. -/
theorem C10_last_write_wins (st : MetricsCollector) (a : String)
    (s s₁ s₂ : ℚ) (h : (lookupAgent st.agent_metrics a).isSome = true) :
    (lookupAgent (record_agent_quality_score st a s).agent_metrics a).map
      AgentMetrics.quality_score = some s ∧
    record_agent_quality_score (record_agent_quality_score st a s₁) a s₂ =
      record_agent_quality_score st a s₂ ∧
    record_agent_quality_score (record_agent_quality_score st a s) a s =
      record_agent_quality_score st a s := by
  refine ⟨?_, record_quality_twice st a s₁ s₂, record_quality_twice st a s s⟩
  obtain ⟨m, hm⟩ := Option.isSome_iff_exists.mp h
  simp only [record_agent_quality_score, h, if_true]
  rw [lookupAgent_updAgent_self, hm]
  rfl

/-- C10 witness: after one completion for agent "a1", scores overwrite. -/
theorem C10_witness :
    (lookupAgent (record_agent_quality_score
        (record_agent_task_completion initCollector "a1" "worker" 2 true 0)
        "a1" (3 / 4)).agent_metrics "a1").map AgentMetrics.quality_score =
      some (3 / 4) ∧
    record_agent_quality_score (record_agent_quality_score
        (record_agent_task_completion initCollector "a1" "worker" 2 true 0)
        "a1" (1 / 2)) "a1" (1 / 4) =
      record_agent_quality_score
        (record_agent_task_completion initCollector "a1" "worker" 2 true 0)
        "a1" (1 / 4) ∧
    record_agent_quality_score (record_agent_quality_score
        (record_agent_task_completion initCollector "a1" "worker" 2 true 0)
        "a1" (3 / 4)) "a1" (3 / 4) =
      record_agent_quality_score
        (record_agent_task_completion initCollector "a1" "worker" 2 true 0)
        "a1" (3 / 4) :=
  C10_last_write_wins
    (record_agent_task_completion initCollector "a1" "worker" 2 true 0)
    "a1" (3 / 4) (1 / 2) (1 / 4)
    (by simp [record_agent_task_completion, lookupAgent, updAgent, initCollector])

end AIOrch
